import Mathlib

/-!
Shallow embedding of the snippetbox web application's form validation and
submission pipeline, following the Go sources:

* `cmd/web/handlers.go` — the HTTP handlers `SnippetView`, `SnippetCreatePost`,
  `userSignupPost` (and friends);
* the helpers file (`serverError`, `clientError`, `notFound`, `render`,
  `decodePostForm`);
* `cmd/web/main.go` — wiring only, not modelled.

The `internal/validator` and `internal/models` packages are not part of the
sources; the validator is modelled from the specification (each such
definition carries a `Modelled from the spec:` doc comment), and the stores
are treated as external collaborators, passed to each handler as an explicit
parameter describing the outcome of the store call.

Handlers are embedded as pure functions from the decoded input and the
collaborator outcomes to the list of observable actions they perform on the
response writer, the session and the stores, in program order.
-/

namespace Snippetbox

/-! ### Validator (modelled from the spec) -/

/-- Modelled from the spec: `FieldErrors` is a "mapping from field name
(string) to a single human-readable message (string), unique keys"
(`internal/validator` is not among the sources). Embedded as an association
list so insertion order is explicit. -/
abbrev FieldErrors := List (String × String)

/-- Modelled from the spec: `AddFieldError(field, message)` records a message
for a field; keys are unique and the "first error per field wins", so a field
that already has a message is left unchanged. -/
def AddFieldError (v : FieldErrors) (field message : String) : FieldErrors :=
  if (v.lookup field).isSome then v else v ++ [(field, message)]

/-- Modelled from the spec: `CheckField(ok, field, message)` adds
`(field, message)` to `FieldErrors` only when `ok` is false. -/
def CheckField (v : FieldErrors) (ok : Bool) (field message : String) : FieldErrors :=
  if ok then v else AddFieldError v field message

/-- Modelled from the spec: `Valid()` reports whether `FieldErrors` is empty. -/
def Valid (v : FieldErrors) : Bool := v.isEmpty

/-- Whitespace as trimmed by Go's `strings.TrimSpace` (ASCII part). -/
def isSpaceChar (c : Char) : Bool :=
  c = ' ' || c = '\t' || c = '\n' || c = '\r' || c = '\x0b' || c = '\x0c'

/-- Drop leading and trailing whitespace from a character list. -/
def trimSpace (s : List Char) : List Char :=
  ((s.dropWhile isSpaceChar).reverse.dropWhile isSpaceChar).reverse

/-- Modelled from the spec: `NotBlank(s)` is "false iff trimmed s is empty". -/
def NotBlank (s : String) : Bool := !(trimSpace s.data).isEmpty

/-- Modelled from the spec: `MaxChars(s, n)` is "false iff s's character count
exceeds n". -/
def MaxChars (s : String) (n : Nat) : Bool := s.data.length ≤ n

/-- Modelled from the spec: `MinChars(s, n)` is "false iff s's character count
is below n". -/
def MinChars (s : String) (n : Nat) : Bool := n ≤ s.data.length

/-- Modelled from the spec: `PermittedInt(v, allowed...)` is "true iff v
equals one of the allowed values (exact set, not a range)". -/
def PermittedInt (v : Int) (permitted : List Int) : Bool := permitted.contains v

/-- Modelled from the spec: stand-in for the email regular expression
`EmailRX` ("email shape checking"): the sample value `a@b.com` matches and
`not-an-email` does not. Used only to instantiate handlers at concrete
inputs; the handlers themselves take the matcher as a parameter. -/
def emailRxModel (s : String) : Bool := s.data.contains '@'

/-! ### Forms (`cmd/web/handlers.go`) -/

/-- `snippetCreateForm` from `handlers.go`: Title, Content, Expires (the
embedded Validator starts empty and is computed separately). -/
structure snippetCreateForm where
  Title : String
  Content : String
  Expires : Int
deriving DecidableEq

/-- `userSignupForm` from `handlers.go`: Name, Email, Password. -/
structure userSignupForm where
  Name : String
  Email : String
  Password : String
deriving DecidableEq

/-! ### decodePostForm (helpers file) -/

/-- Kinds of non-nil error `formDecoder.Decode` can produce: the
`form.InvalidDecoderError` programmer error, or any other decode error. -/
inductive DecodeErrKind where
  | invalidDecoder
  | other
deriving DecidableEq

/-- Outcome of `decodePostForm` as seen by its caller: the call panicked, it
returned a non-nil error (with `dst` holding whatever the decoder left), or
it returned nil with `dst` populated. -/
inductive DecodeOutcome (α : Type) where
  | panicked
  | errReturned (dst : α)
  | ok (dst : α)
deriving DecidableEq

/-- `decodePostForm` from the helpers file: `r.ParseForm()` failing returns
the error; then `formDecoder.Decode` failing with `InvalidDecoderError`
panics, any other decode error is returned, and nil means `dst` was
populated. `parseFormErr` and `decodeErr` describe the collaborator calls,
`dst` the destination value after they ran. -/
def decodePostForm {α : Type} (parseFormErr : Bool) (decodeErr : Option DecodeErrKind)
    (dst : α) : DecodeOutcome α :=
  if parseFormErr then .errReturned dst
  else
    match decodeErr with
    | some .invalidDecoder => .panicked
    | some .other => .errReturned dst
    | none => .ok dst

/-! ### Observable handler actions -/

/-- One observable action of a handler, in program order: error responses,
render dispatches (with the form's field errors carried in the template
data), session writes, redirects, and store calls. -/
inductive Action where
  | clientError (status : Nat)
  | serverError
  | render (status : Nat) (page : String) (formErrors : FieldErrors)
  | sessionPut (key value : String)
  | redirect (status : Nat) (url : String)
  | insertSnippet (title content : String) (expires : Int)
  | insertUser (name email password : String)
  | getSnippet (id : Int)
deriving DecidableEq

/-- Result of running a handler: it panicked (propagating a decode panic) or
completed with a list of observable actions. -/
inductive HResult where
  | panicked
  | done (actions : List Action)
deriving DecidableEq

/-! ### SnippetCreatePost (`handlers.go` lines 69–98) -/

/-- The four `CheckField` calls of `SnippetCreatePost`, in source order. -/
def snippetCreateErrors (f : snippetCreateForm) : FieldErrors :=
  CheckField (CheckField (CheckField (CheckField []
    (NotBlank f.Title) "title" "This field cannot be blank")
    (MaxChars f.Title 100) "title" "This field cannot be more than 100 characters long")
    (NotBlank f.Content) "content" "This field cannot be blank")
    (PermittedInt f.Expires [1, 7, 365]) "expires" "This field must equal 1, 7 or 365"

/-- Body of `SnippetCreatePost` after the decode step: validation, then
either the 422 re-render or the store insert followed by the flash write and
the see-other redirect. `insertRes` is the outcome of `a.snippets.Insert`. -/
def snippetCreateRest (form : snippetCreateForm) (insertRes : Except Unit Int) : List Action :=
  let errs := snippetCreateErrors form
  if !(Valid errs) then [Action.render 422 "create.tmpl" errs]
  else
    Action.insertSnippet form.Title form.Content form.Expires ::
      match insertRes with
      | .error _ => [Action.serverError]
      | .ok id =>
          [Action.sessionPut "flash" "Snippet successfully created!",
           Action.redirect 303 ("/snippet/view/" ++ toString id)]

/-- `SnippetCreatePost`: note that in the source the decode-error branch
writes `clientError(400)` but has no `return`, so execution falls through
into validation and the rest of the handler with the residual form value. -/
def SnippetCreatePost (dec : DecodeOutcome snippetCreateForm)
    (insertRes : Except Unit Int) : HResult :=
  match dec with
  | .panicked => .panicked
  | .errReturned form => .done (Action.clientError 400 :: snippetCreateRest form insertRes)
  | .ok form => .done (snippetCreateRest form insertRes)

/-! ### userSignupPost (`handlers.go` lines 116–154) -/

/-- Outcome of `a.user.Insert`: nil, `models.ErrDuplicateEmail`, or any other
error. -/
inductive InsertUserResult where
  | ok
  | duplicateEmail
  | otherErr
deriving DecidableEq

/-- The five `CheckField` calls of `userSignupPost`, in source order.
`emailRx` is the email pattern matcher (`validator.Matches` with
`validator.EmailRX`), a collaborator parameter. -/
def signupErrors (emailRx : String → Bool) (f : userSignupForm) : FieldErrors :=
  CheckField (CheckField (CheckField (CheckField (CheckField []
    (NotBlank f.Name) "name" "This field cannot be blank")
    (NotBlank f.Email) "email" "This field cannot be blank")
    (emailRx f.Email) "email" "This field must be a valid email address")
    (NotBlank f.Password) "password" "This field cannot be blank")
    (MinChars f.Password 8) "password" "This field must be at least 8 characters long"

/-- `userSignupPost`: the decode-error branch returns; the validation-failure
branch returns; but in the source neither arm of the insert-error branch has
a `return`, so after the duplicate-email 422 re-render (or the server error)
execution falls through to the flash write and the see-other redirect. -/
def userSignupPost (emailRx : String → Bool) (dec : DecodeOutcome userSignupForm)
    (insertRes : InsertUserResult) : HResult :=
  match dec with
  | .panicked => .panicked
  | .errReturned _ => .done [Action.clientError 400]
  | .ok form =>
      let errs := signupErrors emailRx form
      if !(Valid errs) then .done [Action.render 422 "signup.tmpl" errs]
      else
        .done (Action.insertUser form.Name form.Email form.Password ::
          (match insertRes with
           | .duplicateEmail =>
               [Action.render 422 "signup.tmpl"
                 (AddFieldError errs "email" "Email address is already in use")]
           | .otherErr => [Action.serverError]
           | .ok => []) ++
          [Action.sessionPut "flash" "Your signup was successful. Please log in.",
           Action.redirect 303 "/user/login"])

/-! ### SnippetView (`handlers.go` lines 42–67) -/

/-- `models.Snippet` (modelled from the spec data model: id, title, content,
created timestamp, expiry timestamp; the models package is not among the
sources). -/
structure Snippet where
  ID : Int
  Title : String
  Content : String
  Created : Nat
  Expires : Nat
deriving DecidableEq

/-- Error from `a.snippets.Get`: `models.ErrNoRecord` or any other error. -/
inductive GetErr where
  | noRecord
  | other
deriving DecidableEq

/-- Digits of a decimal numeral to a natural number; `none` on a non-digit. -/
def digitsToNat (l : List Char) : Option Nat :=
  l.foldl
    (fun acc c =>
      match acc with
      | none => none
      | some n => if c.isDigit then some (n * 10 + (c.toNat - 48)) else none)
    (some 0)

/-- Go's `strconv.Atoi`: optional sign, then one or more decimal digits;
`none` on empty input, a non-digit, or a value outside the 64-bit int range
(Go reports `ErrRange` there, and the handler only checks `err != nil`). -/
def atoi (s : String) : Option Int :=
  let signed : Bool × List Char :=
    match s.data with
    | '-' :: rest => (true, rest)
    | '+' :: rest => (false, rest)
    | chars => (false, chars)
  if signed.2.isEmpty then none
  else
    match digitsToNat signed.2 with
    | none => none
    | some n =>
        let v : Int := if signed.1 then -(n : Int) else (n : Int)
        if v < -(2 ^ 63) || (2 ^ 63 - 1 : Int) < v then none else some v

/-- `SnippetView`: a non-integer or below-1 id parameter yields `notFound`
(a 404 client error) without touching the store; otherwise the store is
queried and `ErrNoRecord` maps to `notFound`, any other error to
`serverError`, and a found snippet to a 200 render of `view.tmpl`. -/
def SnippetView (idParam : String) (store : Int → Except GetErr Snippet) : List Action :=
  match atoi idParam with
  | none => [Action.clientError 404]
  | some id =>
      if id < 1 then [Action.clientError 404]
      else
        Action.getSnippet id ::
          match store id with
          | .error .noRecord => [Action.clientError 404]
          | .error .other => [Action.serverError]
          | .ok _ => [Action.render 200 "view.tmpl" []]

/-! ### render (helpers file, lines 27–47) -/

/-- One write to the response writer inside `render`: the `http.Error` call
made by `serverError`, the `WriteHeader` call, or the buffered body flush. -/
inductive WriteEvent where
  | errorResponse (status : Nat)
  | header (status : Nat)
  | body (bytes : String)
deriving DecidableEq

/-- `render` from the helpers file: look the page up in the template cache
(`cache` tells whether a page identifier is present), execute the template
fully into a buffer (`exec` is the collaborator `ExecuteTemplate`, producing
the buffered bytes or an error), and only on success write the status header
followed by the buffer. Either failure goes through `serverError`, which
writes a single 500 response. -/
def render {TD : Type} (cache : String → Bool) (exec : String → TD → Except Unit String)
    (status : Nat) (page : String) (data : TD) : List WriteEvent :=
  if !(cache page) then [WriteEvent.errorResponse 500]
  else
    match exec page data with
    | .error _ => [WriteEvent.errorResponse 500]
    | .ok buf => [WriteEvent.header status, WriteEvent.body buf]

/-! ### Helper lemmas -/

/-- A key that `lookup` misses is not among the keys. -/
theorem not_mem_keys_of_lookup_eq_none (v : FieldErrors) (field : String)
    (h : v.lookup field = none) : field ∉ v.map Prod.fst := by
  induction v with
  | nil => simp
  | cons p t ih =>
      obtain ⟨k, m⟩ := p
      by_cases hk : field = k
      · subst hk
        simp [List.lookup_cons] at h
      · simp only [List.lookup_cons, beq_false_of_ne hk] at h
        simp only [List.map_cons, List.mem_cons]
        rintro (h1 | hmem)
        · exact hk h1
        · exact ih h hmem

/-- Appending a fresh key at the end makes it retrievable. -/
theorem lookup_append_single (v : FieldErrors) (field msg : String)
    (h : v.lookup field = none) : (v ++ [(field, msg)]).lookup field = some msg := by
  induction v with
  | nil => simp [List.lookup_cons]
  | cons p t ih =>
      obtain ⟨k, m⟩ := p
      by_cases hk : field = k
      · subst hk
        simp [List.lookup_cons] at h
      · rw [List.cons_append, List.lookup_cons]
        simp only [beq_false_of_ne hk]
        simp only [List.lookup_cons, beq_false_of_ne hk] at h
        exact ih h

/-- The 401-character content value of the spec's snippet-create test vector. -/
def content401 : String := String.mk (List.replicate 401 'a')

/-! ### Claim theorems -/

/-- C10: the validator predicates are pure functions with `NotBlank` false on
the empty and the all-space string and true on a letter; `MaxChars` false
above the limit, true below and at the boundary; `PermittedInt` exact-set
membership, so 7 is permitted among 1, 7, 365 and 5 is not. -/
theorem validator_predicate_samples :
    NotBlank "" = false ∧ NotBlank "  " = false ∧ NotBlank "x" = true ∧
    MaxChars "hello" 3 = false ∧ MaxChars "hi" 3 = true ∧ MaxChars "abc" 3 = true ∧
    PermittedInt 7 [1, 7, 365] = true ∧ PermittedInt 5 [1, 7, 365] = false := by
  decide

/-- C7: `decodePostForm` panics exactly on the decoder's
`InvalidDecoderError` (never returning it to the caller), returns every
other failure — body-parse failure or any other decode error — as a
recoverable error, and on a nil decode error returns the populated
destination with nil. -/
theorem decodePostForm_error_classification {α : Type} (dst : α) (d : Option DecodeErrKind) :
    decodePostForm false (some .invalidDecoder) dst = .panicked ∧
    decodePostForm true d dst = .errReturned dst ∧
    decodePostForm false (some .other) dst = .errReturned dst ∧
    decodePostForm false none dst = .ok dst :=
  ⟨rfl, rfl, rfl, rfl⟩

/-- C6: `render` executes the template fully into a buffer before writing:
a missing template or a failed execution yields exactly the server-error
response with no page bytes, and the status header and body are written
only after execution succeeds. -/
theorem render_buffers_before_writing {TD : Type} (cache : String → Bool)
    (exec : String → TD → Except Unit String) (status : Nat) (page : String) (data : TD) :
    (cache page = false →
      render cache exec status page data = [WriteEvent.errorResponse 500]) ∧
    (cache page = true → exec page data = .error () →
      render cache exec status page data = [WriteEvent.errorResponse 500]) ∧
    (∀ buf, cache page = true → exec page data = .ok buf →
      render cache exec status page data = [WriteEvent.header status, WriteEvent.body buf]) := by
  refine ⟨fun h => by simp [render, h], fun h h2 => by simp [render, h, h2],
    fun buf h h2 => by simp [render, h, h2]⟩

/-- Witness for C6 at a concrete cache, executor, page and data. -/
theorem render_buffers_before_writing_witness :
    render (fun p => p == "view.tmpl") (fun _ _ => Except.ok "PAGE") 200 "view.tmpl" () =
      [WriteEvent.header 200, WriteEvent.body "PAGE"] :=
  (render_buffers_before_writing (fun p => p == "view.tmpl")
    (fun _ _ => Except.ok "PAGE") 200 "view.tmpl" ()).2.2 "PAGE" (by decide) rfl

/-- C4: in the snippet-create validation the max-length check applies only to
the title; content is checked only for non-blankness, so the "content" field
error is present exactly when the content is blank, regardless of length. -/
theorem content_checked_only_for_blankness (f : snippetCreateForm) :
    (snippetCreateErrors f).lookup "content" =
      (if NotBlank f.Content then none else some "This field cannot be blank") := by
  cases h1 : NotBlank f.Title <;> cases h2 : MaxChars f.Title 100 <;>
    cases h3 : NotBlank f.Content <;> cases h4 : PermittedInt f.Expires [1, 7, 365] <;>
      simp only [snippetCreateErrors, h1, h2, h3, h4] <;> decide

/-- C5: for a snippet-create submission that decodes and validates cleanly,
the store insert is invoked exactly once; on insert success exactly one flash
value is written and the response is a see-other redirect to
`/snippet/view/id` (no render); on insert failure the single insert is
followed by a server error. -/
theorem snippetCreate_valid_submission (f : snippetCreateForm) (id : Int)
    (h : snippetCreateErrors f = []) :
    SnippetCreatePost (.ok f) (.ok id) =
      .done [Action.insertSnippet f.Title f.Content f.Expires,
             Action.sessionPut "flash" "Snippet successfully created!",
             Action.redirect 303 ("/snippet/view/" ++ toString id)] ∧
    SnippetCreatePost (.ok f) (.error ()) =
      .done [Action.insertSnippet f.Title f.Content f.Expires, Action.serverError] := by
  constructor <;> simp [SnippetCreatePost, snippetCreateRest, h, Valid]

/-- Witness for C5 at the spec's sample: title "A", content "B", expires 7. -/
theorem snippetCreate_valid_submission_witness :
    snippetCreateErrors ⟨"A", "B", 7⟩ = [] ∧
    SnippetCreatePost (.ok ⟨"A", "B", 7⟩) (.ok 1) =
      .done [Action.insertSnippet "A" "B" 7,
             Action.sessionPut "flash" "Snippet successfully created!",
             Action.redirect 303 ("/snippet/view/" ++ toString (1 : Int))] :=
  ⟨by decide, (snippetCreate_valid_submission ⟨"A", "B", 7⟩ 1 (by decide)).1⟩

/-- C2 (divergence evidence): `SnippetCreatePost` is missing a `return` after
its decode-error `clientError(400)`, so a snippet-create submission whose
body fails to parse (form left at its zero value) gets the 400 response and
then still runs validation and renders the create page at 422, for any store
outcome — contradicting "respond with a client error and terminate". -/
theorem snippetCreate_decode_error_falls_through (r : Except Unit Int) :
    SnippetCreatePost (.errReturned ⟨"", "", 0⟩) r =
      .done [Action.clientError 400,
             Action.render 422 "create.tmpl"
               [("title", "This field cannot be blank"),
                ("content", "This field cannot be blank"),
                ("expires", "This field must equal 1, 7 or 365")]] := by
  have h : snippetCreateErrors ⟨"", "", 0⟩ =
      [("title", "This field cannot be blank"),
       ("content", "This field cannot be blank"),
       ("expires", "This field must equal 1, 7 or 365")] := by decide
  simp [SnippetCreatePost, snippetCreateRest, h, Valid]

/-- C3 (counterexample): for the submission with blank title, 401-character
content and expires 9, the resulting `FieldErrors` has NO entry under
"content" — the claim that it contains entries for all of "title",
"content" and "expires" fails at this input. -/
theorem blank_title_long_content_no_content_entry :
    (snippetCreateErrors ⟨"", content401, 9⟩).lookup "content" = none := by
  decide

/-- C3 (amended): for the submission with blank title, 401-character content
and expires 9, `FieldErrors` contains entries for "title" and "expires" (but
none for "content"), `Valid` is false, the response is the 422 re-render of
the create page, and the store insert is not invoked (no insert action, for
any store outcome). -/
theorem blank_title_long_content_rerenders (r : Except Unit Int) :
    snippetCreateErrors ⟨"", content401, 9⟩ =
      [("title", "This field cannot be blank"),
       ("expires", "This field must equal 1, 7 or 365")] ∧
    Valid (snippetCreateErrors ⟨"", content401, 9⟩) = false ∧
    SnippetCreatePost (.ok ⟨"", content401, 9⟩) r =
      .done [Action.render 422 "create.tmpl"
        [("title", "This field cannot be blank"),
         ("expires", "This field must equal 1, 7 or 365")]] := by
  have h : snippetCreateErrors ⟨"", content401, 9⟩ =
      [("title", "This field cannot be blank"),
       ("expires", "This field must equal 1, 7 or 365")] := by decide
  refine ⟨h, by rw [h]; decide, ?_⟩
  simp [SnippetCreatePost, snippetCreateRest, h, Valid]

/-- C1 (divergence evidence): in `userSignupPost` neither arm of the
insert-error branch has a `return`, so for a well-formed signup whose email
already exists in the store the handler renders the signup page at 422 with
the "Email address is already in use" error on the email field, but then
still writes the success flash to the session and issues the see-other
redirect — contradicting "does NOT redirect and does NOT write a flash". -/
theorem signup_duplicate_email_falls_through :
    userSignupPost emailRxModel (.ok ⟨"Bob", "bob@example.com", "password123"⟩)
        .duplicateEmail =
      .done [Action.insertUser "Bob" "bob@example.com" "password123",
             Action.render 422 "signup.tmpl"
               [("email", "Email address is already in use")],
             Action.sessionPut "flash" "Your signup was successful. Please log in.",
             Action.redirect 303 "/user/login"] := by
  decide

/-- C8: `SnippetView` maps a non-integer id parameter, and an integer one
below 1, to a 404 client error without any store call; a store `ErrNoRecord`
to a 404; any other store error to a server error; and only a found snippet
to the 200 render of the view page. -/
theorem snippetView_dispatch (s : String) (store : Int → Except GetErr Snippet) (id : Int) :
    (atoi s = none → SnippetView s store = [Action.clientError 404]) ∧
    (atoi s = some id → id < 1 → SnippetView s store = [Action.clientError 404]) ∧
    (atoi s = some id → 1 ≤ id → store id = .error .noRecord →
      SnippetView s store = [Action.getSnippet id, Action.clientError 404]) ∧
    (atoi s = some id → 1 ≤ id → store id = .error .other →
      SnippetView s store = [Action.getSnippet id, Action.serverError]) ∧
    (∀ sn, atoi s = some id → 1 ≤ id → store id = .ok sn →
      SnippetView s store = [Action.getSnippet id, Action.render 200 "view.tmpl" []]) := by
  refine ⟨fun h => by simp [SnippetView, h],
    fun h hlt => by simp [SnippetView, h, hlt],
    fun h hge hst => ?_, fun h hge hst => ?_, fun sn h hge hst => ?_⟩ <;>
      simp [SnippetView, h, hst, Int.not_lt.mpr hge]

/-- Witness for C8: a non-integer id, the id 0, and an absent record. -/
theorem snippetView_dispatch_witness :
    SnippetView "abc" (fun _ => Except.error GetErr.noRecord) = [Action.clientError 404] ∧
    SnippetView "0" (fun _ => Except.error GetErr.noRecord) = [Action.clientError 404] ∧
    SnippetView "5" (fun _ => Except.error GetErr.noRecord) =
      [Action.getSnippet 5, Action.clientError 404] :=
  ⟨(snippetView_dispatch "abc" (fun _ => Except.error GetErr.noRecord) 0).1 (by decide),
   (snippetView_dispatch "0" (fun _ => Except.error GetErr.noRecord) 0).2.1
     (by decide) (by decide),
   (snippetView_dispatch "5" (fun _ => Except.error GetErr.noRecord) 5).2.2.1
     (by decide) (by decide) rfl⟩

/-- C9: `FieldErrors` keeps unique keys with a single message per field and
the first recorded error wins — adding (via `AddFieldError` or a failing
`CheckField`) to a field that already has a message changes nothing, a
message recorded for a fresh field is retrievable, key uniqueness is
preserved — and `Valid` is true iff the accumulator is empty. -/
theorem fieldErrors_first_error_wins (v : FieldErrors) (field msg : String) (ok : Bool) :
    ((v.lookup field).isSome = true → AddFieldError v field msg = v) ∧
    ((v.lookup field).isSome = true → CheckField v ok field msg = v) ∧
    (v.lookup field = none → (AddFieldError v field msg).lookup field = some msg) ∧
    ((v.map Prod.fst).Nodup → ((AddFieldError v field msg).map Prod.fst).Nodup) ∧
    (Valid v = true ↔ v = []) := by
  refine ⟨fun h => by simp [AddFieldError, h], fun h => ?_, fun h => ?_, fun h => ?_, ?_⟩
  · cases ok with
    | true => simp [CheckField]
    | false => simp [CheckField, AddFieldError, h]
  · rw [AddFieldError, if_neg (by simp [h])]
    exact lookup_append_single v field msg h
  · rw [AddFieldError]
    by_cases hs : (v.lookup field).isSome = true
    · rw [if_pos hs]; exact h
    · rw [if_neg hs, List.map_append]
      refine List.Nodup.append h (by simp) ?_
      have hnone : v.lookup field = none := by
        cases hv : v.lookup field with
        | none => rfl
        | some m => rw [hv] at hs; simp at hs
      have hnotmem := not_mem_keys_of_lookup_eq_none v field hnone
      simp only [List.map_cons, List.map_nil]
      intro a ha hb
      simp only [List.mem_singleton] at hb
      subst hb
      exact hnotmem ha
  · rw [Valid]
    cases v <;> simp

/-- Witness for C9 at concrete accumulators. -/
theorem fieldErrors_first_error_wins_witness :
    AddFieldError [("email", "first")] "email" "second" = [("email", "first")] ∧
    CheckField [("email", "first")] false "email" "second" = [("email", "first")] ∧
    (AddFieldError [] "email" "second").lookup "email" = some "second" ∧
    ((AddFieldError [] "email" "second").map Prod.fst).Nodup ∧
    Valid [] = true :=
  ⟨(fieldErrors_first_error_wins [("email", "first")] "email" "second" false).1 (by decide),
   (fieldErrors_first_error_wins [("email", "first")] "email" "second" false).2.1 (by decide),
   (fieldErrors_first_error_wins [] "email" "second" false).2.2.1 (by decide),
   (fieldErrors_first_error_wins [] "email" "second" false).2.2.2.1 (by decide),
   (fieldErrors_first_error_wins [] "email" "second" false).2.2.2.2.mpr rfl⟩

end Snippetbox
